import Mathlib

/-!
Shallow embedding of the weather MCP server (stdio variant in `src/src/main.ts`,
HTTP/session variant in `src/unnamed/part_000`, tool descriptor in
`src/src/server/tools.ts`), with theorems about its call-tool dispatch,
session handling, notification streaming and cleanup behaviour.

Conventions of the embedding:
* machine-level JS values that matter only through their truthiness are
  modelled as `Bool` or `Option String` with an explicit `truthy`;
* the outbound axios GET is modelled by an oracle `fetch : Query → FetchOutcome`
  supplied as a parameter; the handler records the query it issued (or `none`
  when no network call was made);
* thrown JS exceptions are the `Thrown` inductive: `McpError` values (from the
  protocol SDK) and plain `Error` values are distinct constructors.
-/

/-- JS truthiness of an optional string (a request header or argument field):
`undefined` and the empty string are falsy, every other string is truthy. -/
def truthy : Option String → Bool
  | none => false
  | some s => !s.isEmpty

/-- The protocol SDK error codes used by the handlers
(`ErrorCode.MethodNotFound`, `ErrorCode.InvalidParams`, `ErrorCode.InternalError`). -/
inductive ErrorCode where
  | methodNotFound
  | invalidParams
  | internalError
  deriving DecidableEq, Repr

/-- JSON-RPC numeric value of each SDK error code. -/
def ErrorCode.toInt : ErrorCode → Int
  | .methodNotFound => -32601
  | .invalidParams => -32602
  | .internalError => -32603

/-- A thrown JS exception as seen by the call-tool handlers: either an SDK
`McpError` (code plus message) or a plain `Error` (message only; this covers
axios failures and the handler's own `new Error(...)`). -/
inductive Thrown where
  | mcpError (code : ErrorCode) (message : String)
  | jsError (message : String)
  deriving DecidableEq, Repr

/-- The `catch (error)` block closing both call-tool handlers
(`src/src/main.ts` lines 120-129, `src/unnamed/part_000` lines 178-187):
a value that is `instanceof Error` is wrapped into
`McpError(InternalError, "Failed to fetch data: " + error.message)`; any other
value reaches the final `throw error` and is re-raised unchanged.
Modelled from the spec for the SDK part: `McpError` is defined in the protocol
SDK, outside this repository; per the spec's propagation contract (§7,
validation errors surface synchronously with their own codes; §4.4, only
errors raised while fetching or interpreting weather data are re-wrapped),
`McpError` values take the re-raise branch unchanged, while plain `Error`
values are wrapped. -/
def catchWrap : Except Thrown (Option String) → Except Thrown (Option String)
  | .ok v => .ok v
  | .error (.jsError m) =>
      .error (.mcpError .internalError ("Failed to fetch data: " ++ m))
  | .error (.mcpError c m) => .error (.mcpError c m)

/-- The outbound HTTP GET issued through the axios instance: base URL and
timeout from `axios.create` (identical in both variants), path and query
parameters from the `get` call. -/
structure Query where
  baseURL : String
  timeoutMs : Nat
  path : String
  latitude : String
  longitude : String
  current : String
  hourly : String
  deriving DecidableEq, Repr

/-- Outcome of the outbound GET as the handler observes it: a resolved
response (with the truthiness of `response.data` and `response.data.current`),
or a rejection carrying the thrown `Error`'s message (non-2xx status, timeout,
network failure). -/
inductive FetchOutcome where
  | success (hasData : Bool) (hasCurrent : Bool)
  | failure (message : String)
  deriving DecidableEq, Repr

/-- A call-tool request as both handlers read it: `request.params.name` and
the two argument fields. The `arguments` object itself is taken as present
(possibly empty); each field is `none` when absent. -/
structure CallToolRequest where
  name : String
  latitude : Option String
  longitude : Option String
  deriving DecidableEq, Repr

/-- What one execution of a call-tool handler produced: the settled result
(the TS handler body never returns a value, so a non-throwing run resolves
with no structured payload, `Except.ok none`) and the upstream GET it issued,
if any. -/
structure ToolCallOutcome where
  result : Except Thrown (Option String)
  request : Option Query

/-- The query built by the `axiosInstance.get('/forecast', {params: ...})`
call, identical character for character in both variants, against the axios
instance configured in both constructors. -/
def forecastQuery (latitude longitude : String) : Query :=
  { baseURL := "https://api.open-meteo.com/v1"
    timeoutMs := 5000
    path := "/forecast"
    latitude := latitude
    longitude := longitude
    current := "temperature_2m,wind_speed_10m"
    hourly := "temperature_2m,relative_humidity_2m,wind_speed_10m" }

namespace Weather

/-- `try` body of the `CallToolRequestSchema` handler of the stdio variant
(`src/src/main.ts` lines 76-119): reject unknown tool names with
`MethodNotFound`; reject a falsy `latitude`, then a falsy `longitude`, with
`InvalidParams`; then issue the GET and treat a falsy `response.data` or
missing `current` section as a thrown plain `Error`. -/
def callToolTry (fetch : Query → FetchOutcome) (req : CallToolRequest) :
    ToolCallOutcome :=
  if !(["get-weather"].contains req.name) then
    { result := .error (.mcpError .methodNotFound ("Unknown tool: " ++ req.name))
      request := none }
  else if !(truthy req.latitude) then
    { result := .error (.mcpError .invalidParams "Missing required parameter: latitude")
      request := none }
  else if !(truthy req.longitude) then
    { result := .error (.mcpError .invalidParams "Missing required parameter: longitude")
      request := none }
  else if req.name == "get-weather" then
    let q := forecastQuery (req.latitude.getD "") (req.longitude.getD "")
    match fetch q with
    | .failure m => { result := .error (.jsError m), request := some q }
    | .success hasData hasCurrent =>
      if !hasData || !hasCurrent then
        { result := .error (.jsError "No current weather data returned from Weather API")
          request := some q }
      else
        { result := .ok none, request := some q }
  else
    { result := .ok none, request := none }

/-- The full `CallToolRequestSchema` handler of the stdio variant
(`src/src/main.ts` lines 75-130): the `try` body with its `catch` wrap. -/
def callToolHandler (fetch : Query → FetchOutcome) (req : CallToolRequest) :
    ToolCallOutcome :=
  let r := callToolTry fetch req
  { result := catchWrap r.result, request := r.request }

end Weather

namespace MCPServer

/-- `try` body of the `CallToolRequestSchema` handler of the HTTP variant
(`src/unnamed/part_000` lines 134-177), line for line the same logic as the
stdio variant: name check, latitude then longitude presence check, GET, and
`current`-section check. -/
def callToolTry (fetch : Query → FetchOutcome) (req : CallToolRequest) :
    ToolCallOutcome :=
  if !(["get-weather"].contains req.name) then
    { result := .error (.mcpError .methodNotFound ("Unknown tool: " ++ req.name))
      request := none }
  else if !(truthy req.latitude) then
    { result := .error (.mcpError .invalidParams "Missing required parameter: latitude")
      request := none }
  else if !(truthy req.longitude) then
    { result := .error (.mcpError .invalidParams "Missing required parameter: longitude")
      request := none }
  else if req.name == "get-weather" then
    let q := forecastQuery (req.latitude.getD "") (req.longitude.getD "")
    match fetch q with
    | .failure m => { result := .error (.jsError m), request := some q }
    | .success hasData hasCurrent =>
      if !hasData || !hasCurrent then
        { result := .error (.jsError "No current weather data returned from Weather API")
          request := some q }
      else
        { result := .ok none, request := some q }
  else
    { result := .ok none, request := none }

/-- The full `CallToolRequestSchema` handler of the HTTP variant
(`src/unnamed/part_000` lines 133-188): the `try` body with its `catch` wrap. -/
def callToolHandler (fetch : Query → FetchOutcome) (req : CallToolRequest) :
    ToolCallOutcome :=
  let r := callToolTry fetch req
  { result := catchWrap r.result, request := r.request }

/-- The `error` member of a JSON-RPC error envelope. -/
structure ErrorObj where
  code : Int
  message : String
  deriving DecidableEq, Repr

/-- A JSON-RPC response envelope as sent over HTTP: protocol version, an
optional result, an optional error object, and an id. -/
structure JSONRPCResponse where
  jsonrpc : String
  result : Option String
  error : Option ErrorObj
  id : String
  deriving DecidableEq, Repr

/-- `createErrorResponse` (`src/unnamed/part_000` lines 258-267): builds the
envelope `{jsonrpc: "2.0", error: {code: -32000, message}, id: randomUUID()}`
with no result member. The generated UUID is the `genId` parameter. -/
def createErrorResponse (genId : String) (message : String) : JSONRPCResponse :=
  { jsonrpc := "2.0"
    result := none
    error := some { code := -32000, message := message }
    id := genId }

/-- A POST body as `isInitializeRequest` inspects it
(`src/unnamed/part_000` lines 269-278): either a single JSON value or an
array of values. Each value is abstracted by the one bit the code extracts
from it — whether `InitializeRequestSchema.safeParse` (protocol SDK) succeeds
on it, i.e. whether it satisfies the initialize message shape. -/
inductive Body where
  | elem (isInitShaped : Bool)
  | batch (elems : List Bool)
  deriving DecidableEq, Repr

/-- `isInitializeRequest` (`src/unnamed/part_000` lines 269-278): an array
body qualifies when `some` element parses as an initialize request; a
non-array body qualifies exactly when it parses itself. -/
def isInitializeRequest : Body → Bool
  | .batch elems => elems.any (fun b => b)
  | .elem b => b

/-- Result of `handleGetRequest`: a rejected request (HTTP status plus JSON
error envelope) or an established SSE stream for the named session; only the
latter hands the request to the session's transport. -/
inductive GetOutcome where
  | badRequest (status : Nat) (response : JSONRPCResponse)
  | streamEstablished (sessionId : String)
  deriving DecidableEq, Repr

/-- `handleGetRequest` (`src/unnamed/part_000` lines 36-53): a falsy
`mcp-session-id` header, or one naming no transport in the map, is answered
with HTTP 400 and `createErrorResponse`; otherwise the stream is established
on the session's transport. `transports` is the list of registered session
ids (the keys of the transports map); `genId` is the UUID `createErrorResponse`
generates for the envelope's id. -/
def handleGetRequest (transports : List String) (header : Option String)
    (genId : String) : GetOutcome :=
  if !truthy header || !transports.contains (header.getD "") then
    .badRequest 400 (createErrorResponse genId "Bad Request: invalid session ID or method.")
  else
    .streamEstablished (header.getD "")

/-- Result of `handlePostRequest`: the request was routed to an existing
session's transport, a fresh transport was created (and registered, when the
SDK exposed a session id after the first request), or the request was
rejected with an HTTP status and JSON error envelope. Only the first two
outcomes hand the request to a transport and hence to tool-call logic. -/
inductive PostOutcome where
  | routedToExisting (sessionId : String)
  | createdSession (sessionId : Option String)
  | badRequest (status : Nat) (response : JSONRPCResponse)
  deriving DecidableEq, Repr

/-- `handlePostRequest` (`src/unnamed/part_000` lines 55-101): with a truthy
session header naming a registered transport, the request is routed to it;
with a falsy header and an initialize-shaped body, a new transport is created
and registered under the session id the SDK generated while handling the
first request (`generated`; `randomUUID()` in stateful mode, modelled as a
parameter, `none` covering the stateless mode where `transport.sessionId`
stays unset and nothing is registered); every other request is answered with
HTTP 400 and `createErrorResponse`. Returns the outcome together with the
updated list of registered session ids. -/
def handlePostRequest (transports : List String) (header : Option String)
    (body : Body) (generated : Option String) (genId : String) :
    PostOutcome × List String :=
  if truthy header && transports.contains (header.getD "") then
    (.routedToExisting (header.getD ""), transports)
  else if !truthy header && isInitializeRequest body then
    match generated with
    | some sid => (.createdSession (some sid), transports ++ [sid])
    | none => (.createdSession none, transports)
  else
    (.badRequest 400 (createErrorResponse genId "Bad Request: invalid session ID or method."),
     transports)

/-- A server-to-client notification before the JSON-RPC wrap: method tag and,
for logging messages, the `(level, data)` params; `none` params for the
tool-list-changed signal. -/
structure ServerNotification where
  method : String
  params : Option (String × String)
  deriving DecidableEq, Repr

/-- A notification as `sendNotification` puts it on the wire. -/
structure JSONRPCNotification where
  jsonrpc : String
  method : String
  params : Option (String × String)
  deriving DecidableEq, Repr

/-- `sendNotification` (`src/unnamed/part_000` lines 249-255): spreads the
notification into a JSON-RPC message by adding `jsonrpc: "2.0"` and sends it
on the transport. -/
def sendNotification (n : ServerNotification) : JSONRPCNotification :=
  { jsonrpc := "2.0", method := n.method, params := n.params }

/-- An informational logging-message notification
(`method: "notifications/message", params: {level: "info", data}`). -/
def infoMessage (data : String) : ServerNotification :=
  { method := "notifications/message", params := some ("info", data) }

/-- The interval callback of `streamMessages` (`src/unnamed/part_000` lines
206-241) run over the available ticks: each tick increments `messageCount`
and sends `Message ${count} at ${timestamp}` (the wall-clock timestamp of
tick `c` is the oracle `time c`); when the count reaches 2 the interval is
cleared and the final `Streaming complete!` message is sent in the same tick,
so later ticks never fire. The inner `try`/`catch` never fires for send
failures: `sendNotification` is an un-awaited async call, so its rejection
bypasses the `catch` and the tick sequence is unaffected. -/
def streamTicks (time : Nat → String) : Nat → Nat → List JSONRPCNotification
  | 0, _ => []
  | ticks + 1, messageCount =>
    let c := messageCount + 1
    let msg := sendNotification (infoMessage ("Message " ++ toString c ++ " at " ++ time c))
    if c == 2 then
      [msg, sendNotification (infoMessage "Streaming complete!")]
    else
      msg :: streamTicks time ticks c

/-- `streamMessages` (`src/unnamed/part_000` lines 194-246): sends the
`SSE Connection established` notification immediately, then starts the
1-second interval; `ticks` is the number of interval ticks that elapse before
the transport goes away. The returned list is the full sequence of
notifications emitted on this session's stream timer. -/
def streamMessages (time : Nat → String) (ticks : Nat) : List JSONRPCNotification :=
  sendNotification (infoMessage "SSE Connection established") :: streamTicks time ticks 0

/-- What one firing of the tool-change interval's broadcast produced:
the session ids a send was issued to (in map order), those whose send
succeeded, the error messages the broadcast step itself logged, and the
exception it propagated out of the loop, if any. -/
structure BroadcastResult where
  attempts : List String
  delivered : List String
  loggedErrors : List String
  thrown : Option String
  deriving DecidableEq, Repr

/-- The `Object.values(this.transports).forEach(...)` body of the tool-change
interval (`src/unnamed/part_000` lines 120-130): every registered transport
gets a `notifications/tools/list_changed` notification through
`sendNotification`. The call is un-awaited and the callback has no
`try`/`catch` and no logging, so a failed send (the oracle `sendOk` says
which sessions' sends succeed) neither stops the loop, nor adds a log entry,
nor throws out of the loop; it is merely not delivered. -/
def toolListChangedBroadcast (sendOk : String → Bool) :
    List String → BroadcastResult
  | [] => { attempts := [], delivered := [], loggedErrors := [], thrown := none }
  | t :: rest =>
    let tail := toolListChangedBroadcast sendOk rest
    { attempts := t :: tail.attempts
      delivered := if sendOk t then t :: tail.delivered else tail.delivered
      loggedErrors := tail.loggedErrors
      thrown := tail.thrown }

/-- The process-wide resources `cleanup` touches: the tool-change interval
and the server (with its transports). -/
structure ServerResources where
  toolIntervalActive : Bool
  serverOpen : Bool
  deriving DecidableEq, Repr

/-- `cleanup` (`src/unnamed/part_000` lines 103-106): closes the tool-change
interval (`this.toolInterval?.close()`) and closes the server. -/
def cleanup (_r : ServerResources) : ServerResources :=
  { toolIntervalActive := false, serverOpen := false }

/-- Per-session state the spec's `closeSession` operates on: the registered
session ids (the transports map keys) and the session ids with a live
per-session stream timer. -/
structure SessionTable where
  transports : List String
  streamTimers : List String
  deriving DecidableEq, Repr

/-- Modelled from the spec: `closeSession(sessionId)` — "removes the mapping;
idempotent" (§4.1) and "closing a session must cancel its per-session stream
timer" (§5). No close-session routine exists in the repository source, which
only declares the transports map (`src/unnamed/part_000` line 17); this
definition follows the spec's words: drop the session id from the map and
cancel its stream timer. -/
def closeSession (st : SessionTable) (sessionId : String) : SessionTable :=
  { transports := st.transports.filter (fun s => s != sessionId)
    streamTimers := st.streamTimers.filter (fun s => s != sessionId) }

end MCPServer

/-! ## Theorems -/

/-- C1: for every call-tool request whose tool name is not `get-weather`, the
handler returns a MethodNotFound-class error (`Unknown tool: <name>`) and
never issues the outbound weather network call, in both the stdio and HTTP
variants. -/
theorem c1_unknown_tool_method_not_found_no_fetch
    (fetch : Query → FetchOutcome) (req : CallToolRequest)
    (h : req.name ≠ "get-weather") :
    MCPServer.callToolHandler fetch req =
      { result := .error (.mcpError .methodNotFound ("Unknown tool: " ++ req.name))
        request := none }
  ∧ Weather.callToolHandler fetch req =
      { result := .error (.mcpError .methodNotFound ("Unknown tool: " ++ req.name))
        request := none } := by
  constructor <;>
    simp [MCPServer.callToolHandler, MCPServer.callToolTry,
      Weather.callToolHandler, Weather.callToolTry, catchWrap, h]

/-- Witness for C1: calling the unknown tool `foo` is rejected with
MethodNotFound and no upstream request, in both variants. -/
theorem c1_witness_unknown_tool :
    MCPServer.callToolHandler (fun _ => .success true true)
        { name := "foo", latitude := none, longitude := none } =
      { result := .error (.mcpError .methodNotFound ("Unknown tool: " ++ "foo"))
        request := none }
  ∧ Weather.callToolHandler (fun _ => .success true true)
        { name := "foo", latitude := none, longitude := none } =
      { result := .error (.mcpError .methodNotFound ("Unknown tool: " ++ "foo"))
        request := none } :=
  c1_unknown_tool_method_not_found_no_fetch (fun _ => .success true true)
    { name := "foo", latitude := none, longitude := none } (by decide)

/-- C2: for a `get-weather` call, a missing latitude yields the InvalidParams
error mentioning latitude; a present (truthy) latitude with a missing
longitude yields the InvalidParams error mentioning longitude; with both
missing the latitude error is produced; in all three cases no upstream
request is issued — in both variants. -/
theorem c2_missing_params_invalid_params_no_fetch
    (fetch : Query → FetchOutcome) (req : CallToolRequest)
    (hname : req.name = "get-weather") :
    (req.latitude = none →
      MCPServer.callToolHandler fetch req =
        { result := .error (.mcpError .invalidParams "Missing required parameter: latitude")
          request := none }
      ∧ Weather.callToolHandler fetch req =
        { result := .error (.mcpError .invalidParams "Missing required parameter: latitude")
          request := none })
  ∧ (truthy req.latitude = true → req.longitude = none →
      MCPServer.callToolHandler fetch req =
        { result := .error (.mcpError .invalidParams "Missing required parameter: longitude")
          request := none }
      ∧ Weather.callToolHandler fetch req =
        { result := .error (.mcpError .invalidParams "Missing required parameter: longitude")
          request := none })
  ∧ (req.latitude = none → req.longitude = none →
      MCPServer.callToolHandler fetch req =
        { result := .error (.mcpError .invalidParams "Missing required parameter: latitude")
          request := none }
      ∧ Weather.callToolHandler fetch req =
        { result := .error (.mcpError .invalidParams "Missing required parameter: latitude")
          request := none }) := by
  refine ⟨fun hlat => ?_, fun hlat hlong => ?_, fun hlat _ => ?_⟩
  · constructor <;>
      simp [MCPServer.callToolHandler, MCPServer.callToolTry,
        Weather.callToolHandler, Weather.callToolTry, catchWrap, hname, hlat, truthy]
  · constructor <;>
      · simp only [MCPServer.callToolHandler, MCPServer.callToolTry,
          Weather.callToolHandler, Weather.callToolTry, hname, hlat, hlong]
        simp [catchWrap, truthy]
  · constructor <;>
      simp [MCPServer.callToolHandler, MCPServer.callToolTry,
        Weather.callToolHandler, Weather.callToolTry, catchWrap, hname, hlat, truthy]

/-- Witness for C2: `get-weather` with no arguments is rejected with the
latitude InvalidParams error and no upstream request, in both variants. -/
theorem c2_witness_missing_latitude :
    MCPServer.callToolHandler (fun _ => .success true true)
        { name := "get-weather", latitude := none, longitude := none } =
      { result := .error (.mcpError .invalidParams "Missing required parameter: latitude")
        request := none }
  ∧ Weather.callToolHandler (fun _ => .success true true)
        { name := "get-weather", latitude := none, longitude := none } =
      { result := .error (.mcpError .invalidParams "Missing required parameter: latitude")
        request := none } :=
  (c2_missing_params_invalid_params_no_fetch (fun _ => .success true true)
    { name := "get-weather", latitude := none, longitude := none } rfl).1 rfl

/-- C3: for a `get-weather` call with both coordinates present, a 2xx
upstream response whose body lacks the `current` section yields an
InternalError-class error carrying the underlying failure's message, never a
silent success; and every `Error` raised while fetching (`fetch` rejects with
message `m`) is wrapped into an InternalError whose message is exactly
`Failed to fetch data: ` followed by the original message — in both
variants. -/
theorem c3_fetch_failures_wrapped_internal_error
    (fetch : Query → FetchOutcome) (req : CallToolRequest)
    (hname : req.name = "get-weather")
    (hlat : truthy req.latitude = true) (hlong : truthy req.longitude = true) :
    (fetch (forecastQuery (req.latitude.getD "") (req.longitude.getD "")) =
        .success true false →
      MCPServer.callToolHandler fetch req =
        { result := .error (.mcpError .internalError
            ("Failed to fetch data: " ++ "No current weather data returned from Weather API"))
          request := some (forecastQuery (req.latitude.getD "") (req.longitude.getD "")) }
      ∧ Weather.callToolHandler fetch req =
        { result := .error (.mcpError .internalError
            ("Failed to fetch data: " ++ "No current weather data returned from Weather API"))
          request := some (forecastQuery (req.latitude.getD "") (req.longitude.getD "")) })
  ∧ (∀ m, fetch (forecastQuery (req.latitude.getD "") (req.longitude.getD "")) =
        .failure m →
      MCPServer.callToolHandler fetch req =
        { result := .error (.mcpError .internalError ("Failed to fetch data: " ++ m))
          request := some (forecastQuery (req.latitude.getD "") (req.longitude.getD "")) }
      ∧ Weather.callToolHandler fetch req =
        { result := .error (.mcpError .internalError ("Failed to fetch data: " ++ m))
          request := some (forecastQuery (req.latitude.getD "") (req.longitude.getD "")) }) := by
  refine ⟨fun hfetch => ?_, fun m hfetch => ?_⟩ <;>
    constructor <;>
      · simp only [MCPServer.callToolHandler, MCPServer.callToolTry,
          Weather.callToolHandler, Weather.callToolTry, hname, hlat, hlong, hfetch]
        simp [catchWrap]

/-- Witness for C3: a 2xx response without a `current` section on a valid
call is answered with the wrapped InternalError, in both variants. -/
theorem c3_witness_missing_current :
    MCPServer.callToolHandler (fun _ => .success true false)
        { name := "get-weather", latitude := some "1", longitude := some "2" } =
      { result := .error (.mcpError .internalError
          ("Failed to fetch data: " ++ "No current weather data returned from Weather API"))
        request := some (forecastQuery "1" "2") }
  ∧ Weather.callToolHandler (fun _ => .success true false)
        { name := "get-weather", latitude := some "1", longitude := some "2" } =
      { result := .error (.mcpError .internalError
          ("Failed to fetch data: " ++ "No current weather data returned from Weather API"))
        request := some (forecastQuery "1" "2") } :=
  (c3_fetch_failures_wrapped_internal_error (fun _ => .success true false)
    { name := "get-weather", latitude := some "1", longitude := some "2" }
    rfl (by decide) (by decide)).1 rfl

/-- C4: for every valid (truthy latitude, truthy longitude) `get-weather`
call whose upstream response has a body with a `current` section, the handler
completes without error and returns no structured result payload (`ok none`),
having issued exactly the forecast GET — in both variants. -/
theorem c4_success_empty_result
    (fetch : Query → FetchOutcome) (req : CallToolRequest)
    (hname : req.name = "get-weather")
    (hlat : truthy req.latitude = true) (hlong : truthy req.longitude = true)
    (hfetch : fetch (forecastQuery (req.latitude.getD "") (req.longitude.getD "")) =
        .success true true) :
    MCPServer.callToolHandler fetch req =
      { result := .ok none
        request := some (forecastQuery (req.latitude.getD "") (req.longitude.getD "")) }
  ∧ Weather.callToolHandler fetch req =
      { result := .ok none
        request := some (forecastQuery (req.latitude.getD "") (req.longitude.getD "")) } := by
  constructor <;>
    · simp only [MCPServer.callToolHandler, MCPServer.callToolTry,
        Weather.callToolHandler, Weather.callToolTry, hname, hlat, hlong, hfetch]
      simp [catchWrap]

/-- Witness for C4: a successful upstream response on a valid call yields the
empty (implicit) success in both variants. -/
theorem c4_witness_success :
    MCPServer.callToolHandler (fun _ => .success true true)
        { name := "get-weather", latitude := some "1", longitude := some "2" } =
      { result := .ok none, request := some (forecastQuery "1" "2") }
  ∧ Weather.callToolHandler (fun _ => .success true true)
        { name := "get-weather", latitude := some "1", longitude := some "2" } =
      { result := .ok none, request := some (forecastQuery "1" "2") } :=
  c4_success_empty_result (fun _ => .success true true)
    { name := "get-weather", latitude := some "1", longitude := some "2" }
    rfl (by decide) (by decide) rfl

/-- C10: the stdio variant's call-tool handler and the HTTP variant's
call-tool handler compute the same function of the fetch oracle and the
request: same name check, same validation order, same upstream GET with the
same query parameters, identical results and identical error classes and
messages. -/
theorem c10_call_tool_handlers_equivalent :
    ∀ (fetch : Query → FetchOutcome) (req : CallToolRequest),
      MCPServer.callToolHandler fetch req = Weather.callToolHandler fetch req :=
  fun _ _ => rfl

/-- C5: a POST creates and registers a new session exactly when it carries no
(truthy) session identifier and its body satisfies the initialize message
shape; a batch body qualifies when any element is initialize-shaped; a POST
with no session identifier and a non-qualifying body is answered with the
Bad-Request envelope and no session is created (the transports map is
unchanged). -/
theorem c5_post_creates_session_iff_no_id_and_init_shape
    (transports : List String) (header : Option String) (body : MCPServer.Body)
    (g genId : String) :
    ((MCPServer.handlePostRequest transports header body (some g) genId).1 =
        .createdSession (some g)
      ↔ (truthy header = false ∧ MCPServer.isInitializeRequest body = true))
  ∧ ((MCPServer.handlePostRequest transports header body (some g) genId).1 =
        .createdSession (some g) →
      (MCPServer.handlePostRequest transports header body (some g) genId).2 =
        transports ++ [g])
  ∧ (∀ elems, MCPServer.isInitializeRequest (.batch elems) = elems.any (fun b => b))
  ∧ (truthy header = false → MCPServer.isInitializeRequest body = false →
      MCPServer.handlePostRequest transports header body (some g) genId =
        (.badRequest 400
          (MCPServer.createErrorResponse genId "Bad Request: invalid session ID or method."),
         transports)) := by
  refine ⟨?_, ?_, fun _ => rfl, ?_⟩ <;>
    · unfold MCPServer.handlePostRequest
      cases htr : truthy header <;>
        cases hinit : MCPServer.isInitializeRequest body <;>
          cases hmem : transports.contains (header.getD "") <;>
            simp [htr, hinit, hmem]

/-- Witness for C5: a POST with no session header and a batch body whose
second element is initialize-shaped creates the session generated by the
transport. -/
theorem c5_witness_batch_creates_session :
    (MCPServer.handlePostRequest [] none (MCPServer.Body.batch [false, true])
        (some "g") "i").1 = .createdSession (some "g") :=
  (c5_post_creates_session_iff_no_id_and_init_shape [] none
    (MCPServer.Body.batch [false, true]) "g" "i").1.mpr ⟨rfl, rfl⟩

/-- C6: a GET or POST whose session header is falsy or names no registered
session (and, for POST, whose body is not initialize-shaped) is answered with
HTTP 400 and the exact envelope `{jsonrpc: "2.0", error: {code: -32000,
message: "Bad Request: invalid session ID or method."}, id: <generated>}` —
no result member is present — and the request is not handed to a transport
(the outcome is `badRequest`, not a routed/created/stream outcome, so it
never reaches tool-call logic; the transports map is unchanged). -/
theorem c6_invalid_session_http_400_envelope
    (transports : List String) (header : Option String) (body : MCPServer.Body)
    (generated : Option String) (genId : String)
    (h : truthy header = false ∨ transports.contains (header.getD "") = false) :
    MCPServer.handleGetRequest transports header genId =
      .badRequest 400
        { jsonrpc := "2.0"
          result := none
          error := some { code := -32000, message := "Bad Request: invalid session ID or method." }
          id := genId }
  ∧ (MCPServer.isInitializeRequest body = false →
      MCPServer.handlePostRequest transports header body generated genId =
        (.badRequest 400
          { jsonrpc := "2.0"
            result := none
            error := some { code := -32000, message := "Bad Request: invalid session ID or method." }
            id := genId },
         transports)) := by
  constructor
  · unfold MCPServer.handleGetRequest
    have hcond : (!truthy header || !transports.contains (header.getD "")) = true := by
      rcases h with h | h <;> rw [h] <;> simp
    rw [hcond]
    simp [MCPServer.createErrorResponse]
  · intro hinit
    unfold MCPServer.handlePostRequest
    have hfirst : (truthy header && transports.contains (header.getD "")) = false := by
      rcases h with h | h <;> rw [h] <;> simp
    have hsecond : (!truthy header && MCPServer.isInitializeRequest body) = false := by
      rw [hinit]
      simp
    rw [hfirst, hsecond]
    simp [MCPServer.createErrorResponse]

/-- Witness for C6: POST `{}` (not initialize-shaped) with no session header
is answered 400 with the exact Bad-Request envelope, and a GET with no
session header likewise. -/
theorem c6_witness_bad_request :
    MCPServer.handleGetRequest [] none "i" =
      .badRequest 400
        { jsonrpc := "2.0"
          result := none
          error := some { code := -32000, message := "Bad Request: invalid session ID or method." }
          id := "i" }
  ∧ MCPServer.handlePostRequest [] none (MCPServer.Body.elem false) none "i" =
      (.badRequest 400
        { jsonrpc := "2.0"
          result := none
          error := some { code := -32000, message := "Bad Request: invalid session ID or method." }
          id := "i" },
       []) :=
  ⟨(c6_invalid_session_http_400_envelope [] none (MCPServer.Body.elem false) none "i"
      (Or.inl rfl)).1,
   (c6_invalid_session_http_400_envelope [] none (MCPServer.Body.elem false) none "i"
      (Or.inl rfl)).2 rfl⟩

/-- C7: once a session's streaming channel is established, its stream timer
emits exactly four notifications in order — `SSE Connection established`,
informational message 1, informational message 2, then the
`Streaming complete!` completion — and, because the interval is cleared on
the second tick, emits nothing further on that timer no matter how many more
ticks elapse. -/
theorem c7_stream_timer_emits_exactly_four
    (time : Nat → String) (ticks : Nat) (h : 2 ≤ ticks) :
    MCPServer.streamMessages time ticks =
      [ { jsonrpc := "2.0", method := "notifications/message"
          params := some ("info", "SSE Connection established") },
        { jsonrpc := "2.0", method := "notifications/message"
          params := some ("info", "Message 1 at " ++ time 1) },
        { jsonrpc := "2.0", method := "notifications/message"
          params := some ("info", "Message 2 at " ++ time 2) },
        { jsonrpc := "2.0", method := "notifications/message"
          params := some ("info", "Streaming complete!") } ] := by
  obtain ⟨k, rfl⟩ : ∃ k, ticks = k + 2 := ⟨ticks - 2, by omega⟩
  rfl

/-- Witness for C7: with a constant timestamp oracle and two elapsed ticks,
the stream consists of the four expected notifications. -/
theorem c7_witness_stream :
    MCPServer.streamMessages (fun _ => "T") 2 =
      [ { jsonrpc := "2.0", method := "notifications/message"
          params := some ("info", "SSE Connection established") },
        { jsonrpc := "2.0", method := "notifications/message"
          params := some ("info", "Message 1 at T") },
        { jsonrpc := "2.0", method := "notifications/message"
          params := some ("info", "Message 2 at T") },
        { jsonrpc := "2.0", method := "notifications/message"
          params := some ("info", "Streaming complete!") } ] :=
  c7_stream_timer_emits_exactly_four (fun _ => "T") 2 (by decide)

/-- Counterexample for C8 as stated: when the tool-change broadcast fires
over sessions `a` and `b` and the send to `a` fails, delivery to `b` still
happens (the failure is isolated) but the broadcast step logs nothing — its
log of errors is empty — contradicting the claim that the error is logged. -/
theorem c8_counterexample_failure_not_logged :
    (MCPServer.toolListChangedBroadcast (fun s => s == "b") ["a", "b"]).attempts
        = ["a", "b"]
  ∧ (MCPServer.toolListChangedBroadcast (fun s => s == "b") ["a", "b"]).delivered
        = ["b"]
  ∧ (MCPServer.toolListChangedBroadcast (fun s => s == "b") ["a", "b"]).loggedErrors
        = [] :=
  ⟨rfl, rfl, rfl⟩

/-- C8 (amended): when the tool-change timer broadcasts the
tool-list-changed notification, a send failure for one session does not
prevent the send being issued to every other registered session (successful
sends are exactly the sessions whose transport accepts the send), and no
error propagates out of the broadcast loop; however the broadcast step does
not catch or log the failure — the failed send is simply fire-and-forget. -/
theorem c8_broadcast_isolates_failures_without_logging
    (sendOk : String → Bool) (transports : List String) :
    (MCPServer.toolListChangedBroadcast sendOk transports).attempts = transports
  ∧ (MCPServer.toolListChangedBroadcast sendOk transports).delivered =
      transports.filter sendOk
  ∧ (MCPServer.toolListChangedBroadcast sendOk transports).loggedErrors = []
  ∧ (MCPServer.toolListChangedBroadcast sendOk transports).thrown = none := by
  induction transports with
  | nil => exact ⟨rfl, rfl, rfl, rfl⟩
  | cons t rest ih =>
    refine ⟨?_, ?_, ?_, ?_⟩ <;>
      simp [MCPServer.toolListChangedBroadcast, List.filter_cons,
        ih.1, ih.2.1, ih.2.2.1, ih.2.2.2]

/-- C9: closing a session removes its identifier from the transports map and
cancels its per-session stream timer; closing is idempotent, and closing an
unknown (or already-closed) identifier leaves the table unchanged; `cleanup`
on process shutdown cancels the global tool-change timer. -/
theorem c9_close_session_idempotent_cleanup_cancels_timer
    (st : MCPServer.SessionTable) (sessionId : String)
    (r : MCPServer.ServerResources) :
    sessionId ∉ (MCPServer.closeSession st sessionId).transports
  ∧ sessionId ∉ (MCPServer.closeSession st sessionId).streamTimers
  ∧ MCPServer.closeSession (MCPServer.closeSession st sessionId) sessionId =
      MCPServer.closeSession st sessionId
  ∧ (sessionId ∉ st.transports → sessionId ∉ st.streamTimers →
      MCPServer.closeSession st sessionId = st)
  ∧ (MCPServer.cleanup r).toolIntervalActive = false := by
  obtain ⟨tr, ti⟩ := st
  have hfilter : ∀ l : List String, sessionId ∉ l →
      l.filter (fun s => s != sessionId) = l := by
    intro l hl
    refine List.filter_eq_self.mpr (fun a ha => ?_)
    simp only [bne_iff_ne, ne_eq]
    exact fun e => hl (e ▸ ha)
  refine ⟨?_, ?_, ?_, fun h1 h2 => ?_, rfl⟩
  · simp [MCPServer.closeSession, List.mem_filter]
  · simp [MCPServer.closeSession, List.mem_filter]
  · simp [MCPServer.closeSession, List.filter_filter]
  · simp only [MCPServer.closeSession] at *
    rw [hfilter tr h1, hfilter ti h2]

/-- Witness for C9: closing the unknown session id `b` on a table holding
only session `a` leaves the table unchanged. -/
theorem c9_witness_close_unknown_noop :
    MCPServer.closeSession { transports := ["a"], streamTimers := ["a"] } "b" =
      { transports := ["a"], streamTimers := ["a"] } :=
  (c9_close_session_idempotent_cleanup_cancels_timer
      { transports := ["a"], streamTimers := ["a"] } "b"
      { toolIntervalActive := true, serverOpen := true }).2.2.2.1
    (by decide) (by decide)
